import Mathlib

/-!
Shallow embedding of the conversation-session core of src/Chat_bot.py,
the Flasq chat client.

The embedded operations are the request/response cycle
generate_response (src/Chat_bot.py lines 231-309) and the Clear Chat
button handler (lines 376-381).  The surrounding UI code is
presentation glue and is not modelled.  One call to generate_response
performs at most one HTTP POST; the behaviour of that POST (a
status/decoded-body response, a raised timeout, a raised connection
error, or some other raised exception) is passed in as an explicit
PostResult parameter, and the ambient session state
(st.session_state.messages, st.session_state.ollama_connected) is
passed in and returned explicitly.
-/

namespace Flasq

/-- A JSON-like value, rich enough to mirror the dictionary accesses
performed on the decoded response body at src/Chat_bot.py line 281.
The constructor for values that are neither strings nor dicts
(numbers, arrays, null, booleans) is `Json.other`. -/
inductive Json where
  | str (s : String)
  | obj (fields : List (String × Json))
  | other

/-- A transcript entry: a dict with a role field and a content field.
Role is always a Python string in the source; content is a string for
user turns but, on the assistant side, is whatever value the chained
get calls on the response body produced, hence `Json`. -/
structure Turn where
  role : String
  content : Json

/-- The fixed fallback reply substituted when the decoded body yields
no message content (the default of the inner get at src/Chat_bot.py
line 281). -/
def fallbackText : String := "Sorry, I could not generate a response."

/-- Python x.get(key, default) on a Json value: `some` of the result
when the receiver is a dict (the looked-up field, or the default when
the key is absent); `none` when the receiver is not a dict, in which
case the attribute access raises AttributeError in Python. -/
def dictGet (j : Json) (key : String) (dflt : Json) : Option Json :=
  match j with
  | .obj fields => some ((List.lookup key fields).getD dflt)
  | _ => none

/-- The extraction performed on the decoded 200 body at
src/Chat_bot.py line 281: get the message field defaulting to an empty
dict, then get its content field defaulting to `fallbackText`.  A
`none` result means the chained access raised (caught further out by
the bare except branch). -/
def extractContent (result : Json) : Option Json :=
  (dictGet result "message" (.obj [])).bind fun m =>
    dictGet m "content" (.str fallbackText)

/-- Python truthiness of not user_text.strip() at src/Chat_bot.py
line 233: the stripped string is empty exactly when every character of
the original is whitespace. -/
def isBlank (s : String) : Bool := s.data.all Char.isWhitespace

/-- Behaviour of the single requests.post call made by
generate_response at src/Chat_bot.py lines 273-277.  A `response`
carries the HTTP status code and the decoded JSON body; a body of
`none` means response.json() raised.  The remaining constructors are
the exceptions the source catches: requests.exceptions.Timeout,
requests.exceptions.ConnectionError, and any other exception. -/
inductive PostResult where
  | response (status : Nat) (body : Option Json)
  | timeoutExc
  | connectionErrorExc
  | otherExc

/-- Which branch of generate_response ran, read off from the st.success
/ st.warning / st.error call in that branch.  The `ok` constructor is
the success branch (st.success at line 287) and carries the appended
assistant content; the rest correspond to the spec's error taxonomy:
emptyInput (line 234), backendUnavailable (line 238), badStatus with
the response code (line 291), timeout (line 297), connectionRefused
(line 302), unknown (line 307). -/
inductive ChatOutcome where
  | ok (reply : Json)
  | emptyInput
  | backendUnavailable
  | badStatus (code : Nat)
  | timeout
  | connectionRefused
  | unknown

/-- Result of one generate_response call: the transcript after the
call, the branch that ran, and the outbound message list of the POST
payload (`none` when the call returned before reaching the POST). -/
structure SubmitResult where
  transcript : List Turn
  outcome : ChatOutcome
  sent : Option (List Turn)

/-- The history window hardcoded in the slice at src/Chat_bot.py
line 252 (the comment there calls it the last 10 exchanges, i.e. 20
messages). -/
def historyWindow : Nat := 20

/-- The guarded rollback repeated on every failure branch
(src/Chat_bot.py lines 293-294, 298-299, 303-304, 308-309): pop the
last entry only if the transcript is non-empty and that entry has role
user. -/
def rollbackUser (msgs : List Turn) : List Turn :=
  match msgs.getLast? with
  | some lastTurn => if lastTurn.role = "user" then msgs.dropLast else msgs
  | none => msgs

/-- Embedding of generate_response (src/Chat_bot.py lines 231-309).
Arguments: the current st.session_state.messages, the
st.session_state.ollama_connected flag, the user_text and
system_prompt parameters, and the behaviour of the one requests.post
call.  The model_name and temperature parameters only flow into the
payload's model and options fields, which no transcript logic reads,
so they are not modelled.  Mirrors the source branch for branch: the
blank-input early return (lines 233-235), the disconnected early
return (lines 237-239), the optimistic user append (line 243), the
windowed outbound list (lines 249-257), then the 200 branch with
content extraction and assistant append (lines 279-288), the non-200
branch (lines 290-294), and the three exception handlers
(lines 296-309), each with the guarded rollback. -/
def generate_response (messages : List Turn) (ollama_connected : Bool)
    (user_text : String) (system_prompt : String) (post : PostResult) :
    SubmitResult :=
  if isBlank user_text then
    ⟨messages, .emptyInput, none⟩
  else if !ollama_connected then
    ⟨messages, .backendUnavailable, none⟩
  else
    let messages1 := messages ++ [⟨"user", .str user_text⟩]
    let recent_messages :=
      if messages1.length > historyWindow then
        messages1.drop (messages1.length - historyWindow)
      else messages1
    let outbound := ⟨"system", .str system_prompt⟩ :: recent_messages
    match post with
    | .response status body =>
        if status = 200 then
          match body with
          | some result =>
              match extractContent result with
              | some ai_response =>
                  ⟨messages1 ++ [⟨"assistant", ai_response⟩],
                    .ok ai_response, some outbound⟩
              | none => ⟨rollbackUser messages1, .unknown, some outbound⟩
          | none => ⟨rollbackUser messages1, .unknown, some outbound⟩
        else
          ⟨rollbackUser messages1, .badStatus status, some outbound⟩
    | .timeoutExc => ⟨rollbackUser messages1, .timeout, some outbound⟩
    | .connectionErrorExc =>
        ⟨rollbackUser messages1, .connectionRefused, some outbound⟩
    | .otherExc => ⟨rollbackUser messages1, .unknown, some outbound⟩

/-- The Clear Chat button handler (src/Chat_bot.py lines 376-381): it
assigns the empty list to st.session_state.messages. -/
def clearChat (_messages : List Turn) : List Turn := []

/-- One completed operation on the session transcript: a full
generate_response cycle (with the connection flag and POST behaviour
it observed) or a click of the Clear Chat button. -/
inductive Op where
  | submit (ollama_connected : Bool) (user_text system_prompt : String)
      (post : PostResult)
  | clear

/-- The transcript produced by one completed operation. -/
def applyOp (t : List Turn) : Op → List Turn
  | .submit c u sp p => (generate_response t c u sp p).transcript
  | .clear => clearChat t

/-- The transcript reached from the empty initial transcript
(src/Chat_bot.py line 170) by a serialized sequence of completed
operations. -/
def run (ops : List Op) : List Turn := ops.foldl applyOp []

/-- Every turn with role user is immediately followed by a turn with
role assistant; in particular the transcript does not end in a user
turn. -/
def usersAnswered : List Turn → Bool
  | [] => true
  | [t] => !(t.role == "user")
  | t :: a :: rest =>
      (!(t.role == "user") || (a.role == "assistant")) && usersAnswered (a :: rest)

/-! Helper lemmas shared by the claim theorems. -/

/-- After the optimistic append the transcript ends in a user turn, so
the guarded rollback removes exactly that turn. -/
theorem rollbackUser_concat_user (t : List Turn) (c : Json) :
    rollbackUser (t ++ [⟨"user", c⟩]) = t := by
  simp [rollbackUser]

/-- A generate_response call either leaves the transcript unchanged or
appends the user turn followed by one assistant turn. -/
theorem submit_transcript_cases (t : List Turn) (c : Bool) (u sp : String)
    (post : PostResult) :
    (generate_response t c u sp post).transcript = t ∨
    ∃ a : Json, (generate_response t c u sp post).transcript
        = t ++ [⟨"user", .str u⟩, ⟨"assistant", a⟩] := by
  cases hu : isBlank u with
  | true => left; simp [generate_response, hu]
  | false =>
    cases c with
    | false => left; simp [generate_response, hu]
    | true =>
      cases post with
      | response status body =>
        by_cases hs : status = 200
        · cases body with
          | none =>
            left; simp [generate_response, hu, hs, rollbackUser_concat_user]
          | some result =>
            cases hr : extractContent result with
            | none =>
              left; simp [generate_response, hu, hs, hr, rollbackUser_concat_user]
            | some ai =>
              right; exact ⟨ai, by simp [generate_response, hu, hs, hr]⟩
        · left; simp [generate_response, hu, hs, rollbackUser_concat_user]
      | timeoutExc =>
        left; simp [generate_response, hu, rollbackUser_concat_user]
      | connectionErrorExc =>
        left; simp [generate_response, hu, rollbackUser_concat_user]
      | otherExc =>
        left; simp [generate_response, hu, rollbackUser_concat_user]

/-- Appending a user turn immediately followed by an assistant turn
preserves the usersAnswered invariant. -/
theorem usersAnswered_concat_pair (t : List Turn) (u a : Turn)
    (ha : a.role = "assistant") (h : usersAnswered t = true) :
    usersAnswered (t ++ [u, a]) = true := by
  induction t with
  | nil => simp [usersAnswered, ha]
  | cons x xs ih =>
    cases xs with
    | nil =>
      simp only [usersAnswered] at h
      simp [usersAnswered, h, ha]
    | cons y rest =>
      simp only [usersAnswered, List.cons_append, Bool.and_eq_true] at h ⊢
      exact ⟨h.1, by simpa using ih h.2⟩

/-- One completed operation preserves the usersAnswered invariant. -/
theorem usersAnswered_applyOp (t : List Turn) (op : Op)
    (h : usersAnswered t = true) : usersAnswered (applyOp t op) = true := by
  cases op with
  | clear => simp [applyOp, clearChat, usersAnswered]
  | submit c u sp post =>
    show usersAnswered (generate_response t c u sp post).transcript = true
    rcases submit_transcript_cases t c u sp post with heq | ⟨a, heq⟩
    · rw [heq]; exact h
    · rw [heq]; exact usersAnswered_concat_pair t _ _ rfl h

/-- Folding completed operations from an invariant-satisfying
transcript keeps the invariant. -/
theorem usersAnswered_foldl (ops : List Op) :
    ∀ t : List Turn, usersAnswered t = true →
      usersAnswered (ops.foldl applyOp t) = true := by
  induction ops with
  | nil => intro t h; exact h
  | cons op ops ih =>
    intro t h
    exact ih (applyOp t op) (usersAnswered_applyOp t op h)

/-- The conditional slice at src/Chat_bot.py line 252 always equals
dropping all but the last historyWindow entries, because Nat
subtraction truncates at zero. -/
theorem recent_eq_drop (l : List Turn) :
    (if l.length > historyWindow then l.drop (l.length - historyWindow) else l)
      = l.drop (l.length - historyWindow) := by
  by_cases h : l.length > historyWindow
  · simp [h]
  · have h0 : l.length - historyWindow = 0 := by omega
    simp [h, h0]

/-- Every call of generate_response that reaches the POST sends the
system turn followed by the windowed tail of the optimistically
extended transcript, matching the conditional slice of the source. -/
theorem submit_sent_cond (t : List Turn) (u sp : String) (hu : isBlank u = false)
    (post : PostResult) :
    (generate_response t true u sp post).sent
      = some ((⟨"system", .str sp⟩ : Turn) ::
          (if (t ++ [(⟨"user", .str u⟩ : Turn)]).length > historyWindow then
            (t ++ [(⟨"user", .str u⟩ : Turn)]).drop
              ((t ++ [(⟨"user", .str u⟩ : Turn)]).length - historyWindow)
          else t ++ [(⟨"user", .str u⟩ : Turn)])) := by
  cases post with
  | response status body =>
    by_cases hs : status = 200
    · cases body with
      | none => simp [generate_response, hu, hs]
      | some result =>
        cases hc : extractContent result with
        | none => simp [generate_response, hu, hs, hc]
        | some ai => simp [generate_response, hu, hs, hc]
    · simp [generate_response, hu, hs]
  | timeoutExc => simp [generate_response, hu]
  | connectionErrorExc => simp [generate_response, hu]
  | otherExc => simp [generate_response, hu]

/-- The same statement with the conditional slice rewritten into an
unconditional drop of everything before the window. -/
theorem submit_sent (t : List Turn) (u sp : String) (hu : isBlank u = false)
    (post : PostResult) :
    (generate_response t true u sp post).sent
      = some ((⟨"system", .str sp⟩ : Turn) ::
          (t ++ [(⟨"user", .str u⟩ : Turn)]).drop
            ((t ++ [(⟨"user", .str u⟩ : Turn)]).length - historyWindow)) := by
  rw [submit_sent_cond t u sp hu post, recent_eq_drop]

/-! The claim theorems. -/

/-- C1: for every transcript, every non-blank input, and every failing
POST (a raised timeout, a raised connection error, a non-200 status,
or an unexpected exception, including an undecodable or malformed 200
body), the optimistically appended user turn is rolled back so the
transcript after the call equals the transcript before it, and the
outcome is classified by the failure cause as timeout,
connectionRefused, badStatus with the response code, or unknown. -/
theorem submit_failure_rolled_back (t : List Turn) (u sp : String)
    (hu : isBlank u = false) :
    ((generate_response t true u sp .timeoutExc).transcript = t ∧
      (generate_response t true u sp .timeoutExc).outcome = .timeout) ∧
    ((generate_response t true u sp .connectionErrorExc).transcript = t ∧
      (generate_response t true u sp .connectionErrorExc).outcome
        = .connectionRefused) ∧
    ((generate_response t true u sp .otherExc).transcript = t ∧
      (generate_response t true u sp .otherExc).outcome = .unknown) ∧
    (∀ status body, status ≠ 200 →
      (generate_response t true u sp (.response status body)).transcript = t ∧
      (generate_response t true u sp (.response status body)).outcome
        = .badStatus status) ∧
    (∀ body, body = none ∨ (∃ r, body = some r ∧ extractContent r = none) →
      (generate_response t true u sp (.response 200 body)).transcript = t ∧
      (generate_response t true u sp (.response 200 body)).outcome = .unknown) := by
  refine ⟨⟨?_, ?_⟩, ⟨?_, ?_⟩, ⟨?_, ?_⟩, ?_, ?_⟩
  · simp [generate_response, hu, rollbackUser_concat_user]
  · simp [generate_response, hu]
  · simp [generate_response, hu, rollbackUser_concat_user]
  · simp [generate_response, hu]
  · simp [generate_response, hu, rollbackUser_concat_user]
  · simp [generate_response, hu]
  · intro status body hs
    constructor <;> simp [generate_response, hu, hs, rollbackUser_concat_user]
  · intro body h
    rcases h with rfl | ⟨r, rfl, hr⟩
    · constructor <;> simp [generate_response, hu, rollbackUser_concat_user]
    · constructor <;> simp [generate_response, hu, hr, rollbackUser_concat_user]

/-- C1 witness: a concrete failing call (a timeout on the empty
transcript) leaves the transcript empty. -/
theorem submit_failure_rolled_back_witness :
    isBlank "hi" = false ∧
    (generate_response [] true "hi" "sys" .timeoutExc).transcript = [] :=
  ⟨by decide, (submit_failure_rolled_back [] "hi" "sys" (by decide)).1.1⟩

/-- C2: for every transcript and non-blank input, a 200 response whose
body yields a string reply appends exactly the user turn followed by
the assistant turn carrying that reply, increasing the length by two,
and the outcome carries the assistant content. -/
theorem submit_success_appends_two (t : List Turn) (u sp reply : String)
    (result : Json) (hu : isBlank u = false)
    (hr : extractContent result = some (.str reply)) :
    (generate_response t true u sp (.response 200 (some result))).transcript
        = t ++ [(⟨"user", .str u⟩ : Turn), (⟨"assistant", .str reply⟩ : Turn)] ∧
    (generate_response t true u sp (.response 200 (some result))).transcript.length
        = t.length + 2 ∧
    (generate_response t true u sp (.response 200 (some result))).outcome
        = .ok (.str reply) := by
  refine ⟨?_, ?_, ?_⟩
  · simp [generate_response, hu, hr]
  · simp [generate_response, hu, hr]
  · simp [generate_response, hu, hr]

/-- C2 witness: the spec's scenario with an empty transcript, input
hello, and a body carrying the reply hi. -/
theorem submit_success_appends_two_witness :
    isBlank "hello" = false ∧
    (generate_response [] true "hello" "sys"
        (.response 200 (some (.obj [("message",
          .obj [("content", .str "hi")])])))).transcript
      = [(⟨"user", .str "hello"⟩ : Turn), (⟨"assistant", .str "hi"⟩ : Turn)] :=
  ⟨by decide, by
    simpa using (submit_success_appends_two [] "hello" "sys" "hi"
      (.obj [("message", .obj [("content", .str "hi")])])
      (by decide) (by rfl)).1⟩

/-- C3: every transcript reachable from the empty one by a serialized
sequence of completed generate_response cycles and Clear Chat clicks
has every user turn immediately followed by an assistant turn; in
particular it never ends with an unanswered user turn. -/
theorem run_users_always_answered (ops : List Op) :
    usersAnswered (run ops) = true :=
  usersAnswered_foldl ops [] rfl

/-- C4: every call that reaches the POST sends exactly one leading
system turn holding the system prompt followed by the last
historyWindow turns of the stored transcript (which at that point ends
with the optimistic user turn) in stored order; the outbound list
never exceeds historyWindow turns plus the system turn; and the turns
dropped from the payload stay in the stored transcript, which keeps
the pre-call turns as an unchanged prefix. -/
theorem outbound_list_windowed (t : List Turn) (u sp : String)
    (hu : isBlank u = false) (post : PostResult) :
    ((generate_response t true u sp post).sent
        = some ((⟨"system", .str sp⟩ : Turn) ::
            (t ++ [(⟨"user", .str u⟩ : Turn)]).drop
              ((t ++ [(⟨"user", .str u⟩ : Turn)]).length - historyWindow))) ∧
    (∀ l, (generate_response t true u sp post).sent = some l →
        l.length ≤ historyWindow + 1) ∧
    (∃ rest, (generate_response t true u sp post).transcript = t ++ rest) := by
  refine ⟨submit_sent t u sp hu post, ?_, ?_⟩
  · intro l hl
    rw [submit_sent t u sp hu post] at hl
    have hle := Option.some.inj hl
    subst hle
    simp only [List.length_cons, List.length_drop, List.length_append,
      List.length_singleton, historyWindow]
    omega
  · rcases submit_transcript_cases t true u sp post with heq | ⟨a, heq⟩
    · exact ⟨[], by simp [heq]⟩
    · exact ⟨[(⟨"user", .str u⟩ : Turn), (⟨"assistant", a⟩ : Turn)], heq⟩

/-- C4 witness: on the empty transcript the outbound list is the system
turn followed by the single user turn. -/
theorem outbound_list_windowed_witness :
    isBlank "hello" = false ∧
    (generate_response [] true "hello" "sys" .timeoutExc).sent
      = some [(⟨"system", .str "sys"⟩ : Turn), (⟨"user", .str "hello"⟩ : Turn)] :=
  ⟨by decide, by
    simpa using (outbound_list_windowed [] "hello" "sys" (by decide) .timeoutExc).1⟩

/-- C5 counterexample: a 200 response whose message field is present
but is not an object makes the chained get raise, so the call rolls
back with outcome unknown instead of appending the fallback assistant
turn the claim requires for every malformed body. -/
theorem malformed_message_not_fallback :
    (generate_response [] true "hello" "sys"
        (.response 200 (some (.obj [("message", Json.other)])))).transcript
      = [] ∧
    (generate_response [] true "hello" "sys"
        (.response 200 (some (.obj [("message", Json.other)])))).outcome
      = .unknown := by
  constructor <;> rfl

/-- C5 (amended): when the 200 body is an object whose message key is
absent, or whose message is an object without a content key, the call
does not fail: it appends the assistant turn carrying the fixed
fallback string and takes the success branch. -/
theorem missing_content_falls_back (t : List Turn) (u sp : String)
    (fields : List (String × Json)) (hu : isBlank u = false)
    (hm : List.lookup "message" fields = none ∨
        ∃ mf, List.lookup "message" fields = some (.obj mf) ∧
          List.lookup "content" mf = none) :
    (generate_response t true u sp
        (.response 200 (some (.obj fields)))).transcript
      = t ++ [(⟨"user", .str u⟩ : Turn),
              (⟨"assistant", .str fallbackText⟩ : Turn)] ∧
    (generate_response t true u sp
        (.response 200 (some (.obj fields)))).outcome
      = .ok (.str fallbackText) := by
  have hx : extractContent (.obj fields) = some (.str fallbackText) := by
    rcases hm with hm | ⟨mf, hm, hc⟩
    · simp [extractContent, dictGet, hm]
    · simp [extractContent, dictGet, hm, hc]
  constructor <;> simp [generate_response, hu, hx]

/-- C5 witness: a 200 body that is an empty object yields the fallback
assistant turn. -/
theorem missing_content_falls_back_witness :
    isBlank "hello" = false ∧
    (generate_response [] true "hello" "sys"
        (.response 200 (some (.obj [])))).transcript
      = [(⟨"user", .str "hello"⟩ : Turn),
         (⟨"assistant", .str fallbackText⟩ : Turn)] :=
  ⟨by decide, by
    simpa using (missing_content_falls_back [] "hello" "sys" []
      (by decide) (Or.inl rfl)).1⟩

/-- C6: input that is blank after stripping returns the EmptyInput
branch with no transcript mutation and no POST attempted, for every
transcript, connection flag, and POST behaviour. -/
theorem blank_input_no_mutation (t : List Turn) (c : Bool) (u sp : String)
    (post : PostResult) (hu : isBlank u = true) :
    generate_response t c u sp post = ⟨t, .emptyInput, none⟩ := by
  simp [generate_response, hu]

/-- C6 witness: three spaces are blank and mutate nothing. -/
theorem blank_input_no_mutation_witness :
    isBlank "   " = true ∧
    generate_response [] true "   " "sys" .timeoutExc
      = ⟨[], .emptyInput, none⟩ :=
  ⟨by decide,
    blank_input_no_mutation [] true "   " "sys" .timeoutExc (by decide)⟩

/-- C7 counterexample: with the connection flag false but a blank
user_text, the call returns the EmptyInput branch rather than
BackendUnavailable, because the blank-input check at line 233 runs
before the connection check at line 237. -/
theorem disconnected_blank_gives_empty_input :
    (generate_response [] false "" "sys" .timeoutExc).outcome
      = .emptyInput ∧
    ChatOutcome.emptyInput ≠ ChatOutcome.backendUnavailable :=
  ⟨rfl, fun h => ChatOutcome.noConfusion h⟩

/-- C7 (amended): for every transcript and every input that is not
blank after stripping, a call with the connection flag false returns
the BackendUnavailable branch with no transcript mutation and no POST
attempted. -/
theorem disconnected_fails_before_post (t : List Turn) (u sp : String)
    (post : PostResult) (hu : isBlank u = false) :
    generate_response t false u sp post = ⟨t, .backendUnavailable, none⟩ := by
  simp [generate_response, hu]

/-- C7 witness: a concrete disconnected call with non-blank input. -/
theorem disconnected_fails_before_post_witness :
    isBlank "hi" = false ∧
    generate_response [] false "hi" "sys" .timeoutExc
      = ⟨[], .backendUnavailable, none⟩ :=
  ⟨by decide,
    disconnected_fails_before_post [] "hi" "sys" .timeoutExc (by decide)⟩

/-- C8: the Clear Chat handler yields the empty transcript whatever the
prior transcript was; in this sequential model the assignment is a
single step, so no intermediate state exists. -/
theorem clear_empties_transcript (t : List Turn) : clearChat t = [] := rfl

/-- C9: the rollback is guarded: it is the identity on the empty
transcript (so the pop can never raise), it is the identity whenever
the last entry's role is not user, and it drops exactly the last entry
when that entry's role is user. -/
theorem rollback_guarded :
    rollbackUser ([] : List Turn) = [] ∧
    (∀ (l : List Turn) (x : Turn), l.getLast? = some x → x.role ≠ "user" →
        rollbackUser l = l) ∧
    (∀ (l : List Turn) (x : Turn), l.getLast? = some x → x.role = "user" →
        rollbackUser l = l.dropLast) := by
  refine ⟨rfl, ?_, ?_⟩
  · intro l x h hr
    simp [rollbackUser, h, hr]
  · intro l x h hr
    simp [rollbackUser, h, hr]

/-- C9 witness: rollback leaves a transcript ending in an assistant
turn untouched. -/
theorem rollback_guarded_witness :
    rollbackUser [(⟨"assistant", .str "x"⟩ : Turn)]
      = [(⟨"assistant", .str "x"⟩ : Turn)] :=
  rollback_guarded.2.1 [(⟨"assistant", .str "x"⟩ : Turn)]
    (⟨"assistant", .str "x"⟩ : Turn) rfl (by decide)

/-- C10: every generate_response call, whatever its input, connection
flag, and POST behaviour, keeps the pre-call turns unchanged, in
content, role, and order, as a prefix of the resulting transcript. -/
theorem submit_preserves_prior_turns (t : List Turn) (c : Bool) (u sp : String)
    (post : PostResult) :
    ∃ rest, (generate_response t c u sp post).transcript = t ++ rest := by
  rcases submit_transcript_cases t c u sp post with heq | ⟨a, heq⟩
  · exact ⟨[], by simp [heq]⟩
  · exact ⟨[(⟨"user", .str u⟩ : Turn), (⟨"assistant", a⟩ : Turn)], heq⟩

end Flasq
